import Mathlib

/-!
Shallow embedding of `stress-lb` (src/src/main.rs), a kernel load-balancer
stress tool: a pool of pinned spin workers plus one carrier thread that
receives a periodic thread-directed `SIGALRM` from a POSIX timer.

Machine integers are modelled as `Nat`/`Int` with explicit two's-complement
casts (`Int.bmod`) and wrapping `usize` arithmetic where the Rust code can
overflow (release semantics).  OS calls are modelled by an explicit event
trace; fallible calls are driven by an `OsBehavior` oracle.
-/

/-- Linux constant `SIGEV_THREAD_ID`. -/
def SIGEV_THREAD_ID : Int := 4

/-- Linux constant `SIGALRM`. -/
def SIGALRM : Int := 14

/-- Linux constant `CLOCK_MONOTONIC`. -/
def CLOCK_MONOTONIC : Int := 1

/-- Two's-complement cast of a `u64`-like natural to `i64` (`as i64`). -/
def asI64 (n : Nat) : Int := Int.bmod (Int.ofNat n) (2 ^ 64)

/-- Two's-complement cast of a `u32`-like natural to `i32` (`as i32`). -/
def asI32 (n : Nat) : Int := Int.bmod (Int.ofNat n) (2 ^ 32)

/-- `std::time::Duration`: seconds and the sub-second nanoseconds component. -/
structure Duration where
  as_secs : Nat
  subsec_nanos : Nat
deriving DecidableEq, Repr

/-- The fields of `libc::sigevent` that `Timer::new` fills in (the rest is
`mem::zeroed()`). -/
structure SigEvent where
  sigev_notify : Int
  sigev_signo : Int
  sigev_notify_thread_id : Int
deriving DecidableEq, Repr

/-- `libc::itimerspec`, flattened. -/
structure ITimerSpec where
  it_interval_tv_sec : Int
  it_interval_tv_nsec : Int
  it_value_tv_sec : Int
  it_value_tv_nsec : Int
deriving DecidableEq, Repr

/-- An OS timer-API call as recorded in the trace.  `timerCreate` records the
clock, the sigevent passed in, and `some h` for a successful creation that
wrote (non-null) handle `h`, `none` for a failed one. -/
inductive OsCall
  | timerCreate (clock : Int) (sigev : SigEvent) (result : Option Nat)
  | timerSettime (handle : Nat) (spec : ITimerSpec) (ok : Bool)
  | timerDelete (handle : Nat)
deriving DecidableEq, Repr

/-- `struct TimerId(*mut c_void)`: the raw handle, `none` = null pointer. -/
abbrev TimerId := Option Nat

/-- `impl Drop for TimerId`: `timer_delete` is called only when the handle is
non-null. -/
def TimerId.dropEvents : TimerId → List OsCall
  | none => []
  | some h => [.timerDelete h]

/-- `struct Timer(TimerId)`. -/
structure Timer where
  id : TimerId
deriving DecidableEq, Repr

/-- Dropping a `Timer` drops its `TimerId`. -/
def Timer.dropEvents (t : Timer) : List OsCall := TimerId.dropEvents t.id

/-- `errno::Errno`. -/
structure Errno where
  code : Int
deriving DecidableEq, Repr

/-- Oracle for the fallible OS calls made by `Timer::new`:
`createResult = some h` means `timer_create` succeeds and writes handle `h`
(a non-null pointer); `none` means it returns `-1` and leaves the handle
null.  `settimeOk` decides `timer_settime`. -/
structure OsBehavior where
  createResult : Option Nat
  settimeOk : Bool
  createErrno : Int
  settimeErrno : Int
deriving DecidableEq, Repr

/-- `Timer::new(thread_id, dur)`: builds the sigevent (thread-directed
`SIGALRM` to `thread_id`), calls `timer_create(CLOCK_MONOTONIC, ..)`, then
arms with `it_value = it_interval = dur` via `timer_settime`.  Returns the
Rust result together with the trace of OS calls made before returning —
including the `timer_delete` issued by the `Drop` of the local `timerid`
when the function returns an error. -/
def Timer.new (os : OsBehavior) (thread_id : Int) (dur : Duration) :
    Except Errno Timer × List OsCall :=
  let sigev : SigEvent :=
    { sigev_notify := SIGEV_THREAD_ID
      sigev_signo := SIGALRM
      sigev_notify_thread_id := thread_id }
  match os.createResult with
  | none =>
      -- `ret < 0`: return `Err(errno())`; the local `timerid` is still null,
      -- so its drop performs no OS deletion.
      (.error ⟨os.createErrno⟩,
        [.timerCreate CLOCK_MONOTONIC sigev none] ++ TimerId.dropEvents none)
  | some h =>
      let tmspec : ITimerSpec :=
        { it_interval_tv_sec := asI64 dur.as_secs
          it_interval_tv_nsec := asI64 dur.subsec_nanos
          it_value_tv_sec := asI64 dur.as_secs
          it_value_tv_nsec := asI64 dur.subsec_nanos }
      if os.settimeOk then
        (.ok ⟨some h⟩,
          [.timerCreate CLOCK_MONOTONIC sigev (some h),
           .timerSettime h tmspec true])
      else
        -- arming failed: `Err(errno())` is returned and the local `timerid`
        -- (now holding `h`) is dropped on the way out, deleting the timer.
        (.error ⟨os.settimeErrno⟩,
          [.timerCreate CLOCK_MONOTONIC sigev (some h),
           .timerSettime h tmspec false] ++ TimerId.dropEvents (some h))

/-- Successful `timer_create` calls in a trace. -/
def isCreateOk : OsCall → Bool
  | .timerCreate _ _ (some _) => true
  | _ => false

/-- `timer_delete` calls in a trace. -/
def isDelete : OsCall → Bool
  | .timerDelete _ => true
  | _ => false

def createCount (l : List OsCall) : Nat := (l.filter isCreateOk).length

def deleteCount (l : List OsCall) : Nat := (l.filter isDelete).length

/-- The OS calls performed later when the value returned by `Timer::new` is
dropped: a successful `Timer` deletes its handle, an `Err` carries no
resource. -/
def resultDropEvents : Except Errno Timer → List OsCall
  | .ok t => t.dropEvents
  | .error _ => []

/-- `scheduler::Policy` (only `Fifo` is used). -/
inductive Policy
  | Fifo
deriving DecidableEq, Repr

/-- Events of the whole program: thread-management, channel, shutdown-flag
accesses, signal-handling setup and OS timer calls. -/
inductive Ev
  | signalsNew (sigs : List Int)
  | channelCreate
  | spawnCarrier
  | spawnWorker (i : Nat)
  | send (tid : Int)
  | bindAffinity (cores : List Nat)
  | setPolicy (p : Policy) (prio : Int)
  | flagNew (v : Bool)
  | flagLoad (v : Bool)
  | flagStore (v : Bool)
  | recvDone (tid : Int)
  | volatileWrite
  | os (c : OsCall)
  | sleep
  | joinCarrier
  | joinWorker (i : Nat)
  | exitProcess
deriving DecidableEq, Repr

/-- Trace of the carrier thread's `for _ in signals.forever()` loop: it wakes
once per delivered `SIGALRM`, loads `quit`, returns on `true`.  `falseWakes`
counts the wake-ups that still observed `false`. -/
def carrierLoopTrace : Nat → List Ev
  | 0 => [.flagLoad true]
  | n + 1 => .flagLoad false :: carrierLoopTrace n

/-- Trace of the closure spawned in `TimerThread::new`: it first sends its own
`gettid()` over the channel, then pins itself to core 0, then elevates itself
to FIFO priority, then consumes signals until `quit` is observed `true`. -/
def carrierTrace (tid : Int) (priority : Nat) (falseWakes : Nat) : List Ev :=
  .send tid :: .bindAffinity [0] :: .setPolicy .Fifo (asI32 priority) ::
    carrierLoopTrace falseWakes

/-- The values sent on the identity channel, in order, among a list of
events.  The channel of `TimerThread::new` is created fresh on every call, so
its contents are exactly the sends of this call's carrier thread. -/
def sentValues : List Ev → List Int :=
  List.filterMap fun e =>
    match e with
    | .send v => some v
    | _ => none

/-- State of the identity channel after the carrier thread has executed `k`
steps of its trace: the queue of not-yet-received values (`mpsc::channel`
starts empty). -/
def chanContents (tid : Int) (priority falseWakes k : Nat) : List Int :=
  sentValues ((carrierTrace tid priority falseWakes).take k)

/-- The value the blocking `rx.recv()` returns: the first value ever sent on
the fresh channel (the constructing side blocks until it exists). -/
def recvBlockingResult (tid : Int) (priority falseWakes : Nat) : Int :=
  ((sentValues (carrierTrace tid priority falseWakes)).head?).getD 0

/-- `struct TimerThread { timer: Option<Timer>, thread_handle: Option<JoinHandle> }`
(the join handle is modelled by an opaque numeric id). -/
structure TimerThreadSt where
  timer : Option Timer
  thread_handle : Option Nat
deriving DecidableEq, Repr

/-- `TimerThread::new(interval, priority, quit)`: installs the `SIGALRM`
interception (`Signals::new`, on the constructing thread), creates a fresh
channel, spawns the carrier closure, blocks on `rx.recv()` for the carrier's
tid, and builds the `Timer` bound to exactly the received tid.  Returns the
result and the constructing side's event trace. -/
def TimerThread.new (os : OsBehavior) (carrierTid : Int)
    (priority falseWakes : Nat) (dur : Duration) :
    Except Errno TimerThreadSt × List Ev :=
  let thread_id := recvBlockingResult carrierTid priority falseWakes
  let r := Timer.new os thread_id dur
  (match r.1 with
   | .error e => .error e
   | .ok t => .ok { timer := some t, thread_handle := some 0 },
   [.signalsNew [SIGALRM], .channelCreate, .spawnCarrier, .recvDone thread_id]
     ++ r.2.map Ev.os)

/-- `TimerThread::join`: `mem::replace(&mut self.thread_handle, None).unwrap().join()`.
`none` models the `unwrap` panic when the handle was already taken; a
successful call returns the joined handle id and the updated struct. -/
def TimerThread.join (t : TimerThreadSt) : Option (Nat × TimerThreadSt) :=
  match t.thread_handle with
  | some h => some (h, { t with thread_handle := none })
  | none => none

/-- `usize` modulus. -/
def USIZE : Nat := 2 ^ 64

/-- Wrapping `usize` subtraction (release-build semantics of `a - b`). -/
def usizeSub (a b : Nat) : Nat := (a + (USIZE - b % USIZE)) % USIZE

/-- Wrapping `usize` multiplication (release-build semantics of `a * b`). -/
def usizeMul (a b : Nat) : Nat := a * b % USIZE

/-- `(get_core_num() - 1) * threads_per_core` in `run_worker_threads`. -/
def numWorkerThreads (core_count threads_per_core : Nat) : Nat :=
  usizeMul (usizeSub core_count 1) threads_per_core

/-- The collected `Vec<JoinHandle>` of `run_worker_threads`, one entry per
spawned worker (modelled by its index). -/
def run_worker_threads (core_count threads_per_core : Nat) : List Nat :=
  List.range (numWorkerThreads core_count threads_per_core)

/-- The busy loop of one spin worker: load `quit`, and while it is `false`
perform the volatile read-modify-write; return once `true` is observed. -/
def workerLoopTrace : Nat → List Ev
  | 0 => [.flagLoad true]
  | n + 1 => .flagLoad false :: .volatileWrite :: workerLoopTrace n

/-- Trace of one spin-worker thread: bind to cores `1..core_count`, then spin
until the shutdown flag reads `true` (`falseIters` iterations read `false`). -/
def workerTrace (core_count : Nat) (falseIters : Nat) : List Ev :=
  .bindAffinity (List.range' 1 (core_count - 1)) :: workerLoopTrace falseIters

/-- The parameters of one (successful) run of `main`: discovered core count,
CLI `threads_per_core` and `priority`, the carrier's `gettid()`, the handle
the OS hands out for the timer, the parsed interval, and how often the
carrier woke before observing shutdown. -/
structure RunParams where
  core_count : Nat
  threads_per_core : Nat
  tid : Int
  priority : Nat
  handle : Nat
  interval : Duration
  carrierWakes : Nat
deriving DecidableEq, Repr

/-- OS behavior on the successful path `main` takes (it `unwrap`s both
`TimerThread::new` and the joins). -/
def okOs (h : Nat) : OsBehavior :=
  { createResult := some h, settimeOk := true, createErrno := 0, settimeErrno := 0 }

def numWorkers (p : RunParams) : Nat :=
  numWorkerThreads p.core_count p.threads_per_core

/-- The orchestrating thread's event trace for a successful run of `main`:
create the flag (false), spawn the workers, run `TimerThread::new`
(signal interception, channel, carrier spawn, blocking recv, `Timer::new`),
sleep, store `true` into the flag, join the carrier, join every worker, and
finally — when `timer: TimerThread` goes out of scope — drop the `Timer`,
deleting the OS timer, before the process exits. -/
def mainTrace (p : RunParams) : List Ev :=
  [.flagNew false]
    ++ (run_worker_threads p.core_count p.threads_per_core).map Ev.spawnWorker
    ++ (TimerThread.new (okOs p.handle) p.tid p.priority p.carrierWakes p.interval).2
    ++ [.sleep, .flagStore true, .joinCarrier]
    ++ (run_worker_threads p.core_count p.threads_per_core).map Ev.joinWorker
    ++ (TimerId.dropEvents (some p.handle)).map Ev.os
    ++ [.exitProcess]

/-- The values stored into the shutdown flag, in order, among a list of
events. -/
def flagStores : List Ev → List Bool :=
  List.filterMap fun e =>
    match e with
    | .flagStore v => some v
    | _ => none

theorem flagStores_append (l r : List Ev) :
    flagStores (l ++ r) = flagStores l ++ flagStores r := by
  simp [flagStores]

theorem flagStores_map_os (l : List OsCall) : flagStores (l.map Ev.os) = [] := by
  induction l with
  | nil => rfl
  | cons c r ih => simp [flagStores] at ih ⊢

theorem flagStores_map_spawnWorker (l : List Nat) :
    flagStores (l.map Ev.spawnWorker) = [] := by
  induction l with
  | nil => rfl
  | cons c r ih => simp [flagStores] at ih ⊢

theorem flagStores_map_joinWorker (l : List Nat) :
    flagStores (l.map Ev.joinWorker) = [] := by
  induction l with
  | nil => rfl
  | cons c r ih => simp [flagStores] at ih ⊢

/-- Claim C1: every construction attempt of the timer releases the underlying
OS timer resource exactly once over its whole lifetime (the trace of
`Timer::new` plus the eventual drop of its result): delete count equals
successful-create count on every path; on the arming-failure path the
partially created timer is deleted before `Timer::new` returns the error;
and dropping a `TimerId` holding a null handle performs no OS deletion. -/
theorem timer_new_releases_exactly_once (os : OsBehavior) (tid : Int) (dur : Duration) :
    deleteCount ((Timer.new os tid dur).2 ++ resultDropEvents (Timer.new os tid dur).1)
      = createCount ((Timer.new os tid dur).2 ++ resultDropEvents (Timer.new os tid dur).1)
    ∧ (os.createResult.isSome → os.settimeOk = false →
        deleteCount (Timer.new os tid dur).2 = 1)
    ∧ (∀ h, os.createResult = some h → os.settimeOk = true →
        (Timer.new os tid dur).1 = .ok ⟨some h⟩
        ∧ deleteCount (Timer.new os tid dur).2 = 0
        ∧ resultDropEvents (Timer.new os tid dur).1 = [.timerDelete h])
    ∧ TimerId.dropEvents none = [] := by
  obtain ⟨cr, st, ce, se⟩ := os
  cases cr <;> cases st <;>
    simp [Timer.new, resultDropEvents, Timer.dropEvents, TimerId.dropEvents,
      deleteCount, createCount, isDelete, isCreateOk, List.filter]

/-- Witness for C1 at a concrete arming-failure behavior. -/
theorem timer_new_releases_exactly_once_witness :
    deleteCount (Timer.new ⟨some 5, false, 0, 22⟩ 7 ⟨0, 1000000⟩).2 = 1 :=
  (timer_new_releases_exactly_once ⟨some 5, false, 0, 22⟩ 7 ⟨0, 1000000⟩).2.1
    (by decide) (by decide)

/-- Claim C3: every `timer_create` call issued by `Timer::new` uses the
monotonic clock and a sigevent requesting thread-directed delivery
(`SIGEV_THREAD_ID`, signal `SIGALRM`) to exactly the thread identity passed
in. -/
theorem timer_new_thread_directed (os : OsBehavior) (tid : Int) (dur : Duration) :
    ∀ c sg r, OsCall.timerCreate c sg r ∈ (Timer.new os tid dur).2 →
      c = CLOCK_MONOTONIC ∧ sg.sigev_notify = SIGEV_THREAD_ID
      ∧ sg.sigev_signo = SIGALRM ∧ sg.sigev_notify_thread_id = tid := by
  intro c sg r hmem
  obtain ⟨cr, st, ce, se⟩ := os
  cases cr <;> cases st <;>
    simp [Timer.new, TimerId.dropEvents] at hmem <;>
    obtain ⟨rfl, rfl, rfl⟩ := hmem <;>
    exact ⟨rfl, rfl, rfl, rfl⟩

/-- Witness for C3 at a concrete successful construction. -/
theorem timer_new_thread_directed_witness :
    CLOCK_MONOTONIC = CLOCK_MONOTONIC
      ∧ (⟨SIGEV_THREAD_ID, SIGALRM, 9⟩ : SigEvent).sigev_notify = SIGEV_THREAD_ID
      ∧ (⟨SIGEV_THREAD_ID, SIGALRM, 9⟩ : SigEvent).sigev_signo = SIGALRM
      ∧ (⟨SIGEV_THREAD_ID, SIGALRM, 9⟩ : SigEvent).sigev_notify_thread_id = 9 :=
  timer_new_thread_directed ⟨some 3, true, 0, 0⟩ 9 ⟨1, 2⟩ CLOCK_MONOTONIC
    ⟨SIGEV_THREAD_ID, SIGALRM, 9⟩ (some 3) (by decide)

/-- Claim C4: every `timer_settime` call issued by `Timer::new` arms the timer
with `it_value` equal to `it_interval`, both equal to the given interval
(cast to the `timespec` fields) — no distinct first-fire delay. -/
theorem timer_new_arms_value_eq_interval (os : OsBehavior) (tid : Int) (dur : Duration) :
    ∀ h sp ok, OsCall.timerSettime h sp ok ∈ (Timer.new os tid dur).2 →
      sp.it_value_tv_sec = sp.it_interval_tv_sec
      ∧ sp.it_value_tv_nsec = sp.it_interval_tv_nsec
      ∧ sp.it_interval_tv_sec = asI64 dur.as_secs
      ∧ sp.it_interval_tv_nsec = asI64 dur.subsec_nanos := by
  intro h sp ok hmem
  obtain ⟨cr, st, ce, se⟩ := os
  cases cr <;> cases st <;>
    simp [Timer.new, TimerId.dropEvents] at hmem <;>
    obtain ⟨rfl, rfl, rfl⟩ := hmem <;>
    simp

/-- Witness for C4 at a concrete successful construction. -/
theorem timer_new_arms_value_eq_interval_witness :
    (⟨asI64 1, asI64 2, asI64 1, asI64 2⟩ : ITimerSpec).it_value_tv_sec
        = (⟨asI64 1, asI64 2, asI64 1, asI64 2⟩ : ITimerSpec).it_interval_tv_sec
      ∧ (⟨asI64 1, asI64 2, asI64 1, asI64 2⟩ : ITimerSpec).it_value_tv_nsec
        = (⟨asI64 1, asI64 2, asI64 1, asI64 2⟩ : ITimerSpec).it_interval_tv_nsec
      ∧ (⟨asI64 1, asI64 2, asI64 1, asI64 2⟩ : ITimerSpec).it_interval_tv_sec
        = asI64 (Duration.mk 1 2).as_secs
      ∧ (⟨asI64 1, asI64 2, asI64 1, asI64 2⟩ : ITimerSpec).it_interval_tv_nsec
        = asI64 (Duration.mk 1 2).subsec_nanos :=
  timer_new_arms_value_eq_interval ⟨some 3, true, 0, 0⟩ 9 ⟨1, 2⟩ 3
    ⟨asI64 1, asI64 2, asI64 1, asI64 2⟩ true (by decide)

/-- Claim C2: `TimerThread::new` blocks on the single-use channel until the
carrier thread has published its identity (the channel is empty before the
carrier's first step, so a completed receive implies the carrier ran), the
received value is always exactly the carrier's own tid (never a default/zero
value or a value from a previous run — the channel is created fresh and the
carrier's send is its only producer), and the `Timer` is constructed bound to
exactly the received identity. -/
theorem timer_thread_handoff_race_free (os : OsBehavior) (tid : Int)
    (priority falseWakes k : Nat) (dur : Duration) :
    ((chanContents tid priority falseWakes k).head?.isSome → 1 ≤ k)
    ∧ (∀ v, (chanContents tid priority falseWakes k).head? = some v → v = tid)
    ∧ recvBlockingResult tid priority falseWakes = tid
    ∧ (∀ c sg r, Ev.os (OsCall.timerCreate c sg r)
          ∈ (TimerThread.new os tid priority falseWakes dur).2 →
        sg.sigev_notify_thread_id = recvBlockingResult tid priority falseWakes) := by
  have hrecv : recvBlockingResult tid priority falseWakes = tid := by
    simp [recvBlockingResult, carrierTrace, sentValues]
  refine ⟨?_, ?_, hrecv, ?_⟩
  · cases k with
    | zero => simp [chanContents, sentValues]
    | succ k => simp
  · intro v hv
    cases k with
    | zero => simp [chanContents, sentValues] at hv
    | succ k =>
        simp [chanContents, carrierTrace, sentValues] at hv
        exact hv.symm
  · intro c sg r hmem
    obtain ⟨cr, st, ce, se⟩ := os
    cases cr <;> cases st <;>
      simp [TimerThread.new, Timer.new, TimerId.dropEvents] at hmem <;>
      obtain ⟨rfl, rfl, rfl⟩ := hmem <;>
      simp

/-- Witness for C2 at a concrete schedule (one carrier step executed). -/
theorem timer_thread_handoff_race_free_witness :
    (1 ≤ 1 ∧ (42 : Int) = 42)
      ∧ (⟨SIGEV_THREAD_ID, SIGALRM, recvBlockingResult 42 1 2⟩ : SigEvent).sigev_notify_thread_id
        = recvBlockingResult 42 1 2 := by
  have h := timer_thread_handoff_race_free ⟨some 3, true, 0, 0⟩ 42 1 2 1 ⟨0, 5⟩
  exact ⟨⟨h.1 (by decide), h.2.1 42 (by decide)⟩,
    h.2.2.2 CLOCK_MONOTONIC ⟨SIGEV_THREAD_ID, SIGALRM, recvBlockingResult 42 1 2⟩
      (some 3) (by decide)⟩

/-- Claim C10: `TimerThread::join` is single-use — the first call takes the
thread handle out of the structure and joins it, and a second call on the
same `TimerThread` hits `Option::unwrap` on `None`, i.e. panics (modelled as
`none`) instead of returning a join result. -/
theorem timer_thread_join_single_use (t : TimerThreadSt) (h : Nat)
    (hh : t.thread_handle = some h) :
    TimerThread.join t = some (h, { t with thread_handle := none })
    ∧ ({ t with thread_handle := none } : TimerThreadSt).thread_handle = none
    ∧ TimerThread.join { t with thread_handle := none } = none := by
  simp [TimerThread.join, hh]

/-- Witness for C10 on a concrete joined-once struct. -/
theorem timer_thread_join_single_use_witness :
    TimerThread.join ⟨none, some 5⟩ = some (5, ⟨none, none⟩)
    ∧ (⟨none, none⟩ : TimerThreadSt).thread_handle = none
    ∧ TimerThread.join ⟨none, none⟩ = none :=
  timer_thread_join_single_use ⟨none, some 5⟩ 5 rfl

/-- Claim C5: `run_worker_threads` spawns exactly
`(core_count − 1) × threads_per_core` workers (here under the side conditions
that there is at least one core and the product does not overflow `usize`,
which always hold in practice); in particular 4 cores with 3 threads per core
yield 9 workers. -/
theorem worker_count_formula (core_count threads_per_core : Nat)
    (h1 : 1 ≤ core_count) (h2 : core_count < USIZE)
    (h3 : (core_count - 1) * threads_per_core < USIZE) :
    (run_worker_threads core_count threads_per_core).length
      = (core_count - 1) * threads_per_core := by
  unfold run_worker_threads numWorkerThreads usizeMul usizeSub
  rw [List.length_range]
  have e1 : (core_count + (USIZE - 1 % USIZE)) % USIZE = core_count - 1 := by
    unfold USIZE
    unfold USIZE at h2
    omega
  rw [e1]
  exact Nat.mod_eq_of_lt h3

/-- Witness for C5: `core_count = 4`, `threads_per_core = 3` gives 9 workers. -/
theorem worker_count_formula_witness :
    (run_worker_threads 4 3).length = 9 :=
  worker_count_formula 4 3 (by decide) (by decide) (by decide)

theorem flagStores_workerLoopTrace (n : Nat) :
    flagStores (workerLoopTrace n) = [] := by
  induction n with
  | zero => rfl
  | succ n ih => simpa [workerLoopTrace, flagStores] using ih

theorem flagStores_carrierLoopTrace (n : Nat) :
    flagStores (carrierLoopTrace n) = [] := by
  induction n with
  | zero => rfl
  | succ n ih => simpa [carrierLoopTrace, flagStores] using ih

theorem flagStores_timerThreadNew (os : OsBehavior) (tid : Int)
    (priority falseWakes : Nat) (dur : Duration) :
    flagStores (TimerThread.new os tid priority falseWakes dur).2 = [] := by
  obtain ⟨cr, st, ce, se⟩ := os
  cases cr <;> cases st <;>
    simp [TimerThread.new, Timer.new, TimerId.dropEvents, flagStores]

/-- Claim C6: in every run the shutdown flag is created `false`, the
orchestrator's single `store true` is the only write to it anywhere in the
program (so the only transition is false→true and nothing resets it), and
the spin workers and the carrier's signal-consumption loop perform no
writes — they only read it. -/
theorem shutdown_flag_monotonic (p : RunParams) (core_count falseIters : Nat)
    (tid : Int) (priority falseWakes : Nat) :
    (mainTrace p).head? = some (Ev.flagNew false)
    ∧ flagStores (mainTrace p) = [true]
    ∧ flagStores (workerTrace core_count falseIters) = []
    ∧ flagStores (carrierTrace tid priority falseWakes) = [] := by
  refine ⟨?_, ?_, ?_, ?_⟩
  · simp [mainTrace]
  · rw [mainTrace]
    repeat rw [flagStores_append]
    rw [flagStores_timerThreadNew, flagStores_map_spawnWorker,
      flagStores_map_joinWorker, flagStores_map_os]
    rfl
  · simpa [workerTrace, flagStores] using flagStores_workerLoopTrace falseIters
  · simpa [carrierTrace, flagStores] using flagStores_carrierLoopTrace falseWakes

/-- Claim C8: at shutdown the orchestrator first stores `true` into the
shutdown flag, then joins the timer carrier thread before joining any spin
worker, and joins every spin worker before the process exits — for each
worker `i`, the events `flagStore true`, `joinCarrier`, `joinWorker i`,
`exitProcess` occur in this order in the orchestrator's trace. -/
theorem shutdown_join_order (p : RunParams) (i : Nat) (hi : i < numWorkers p) :
    List.Sublist [Ev.flagStore true, Ev.joinCarrier, Ev.joinWorker i, Ev.exitProcess]
      (mainTrace p) := by
  have s1 : List.Sublist [Ev.flagStore true, Ev.joinCarrier]
      [Ev.sleep, Ev.flagStore true, Ev.joinCarrier] := by decide
  have s2 : List.Sublist [Ev.joinWorker i]
      ((run_worker_threads p.core_count p.threads_per_core).map Ev.joinWorker) := by
    refine List.singleton_sublist.mpr (List.mem_map.mpr ⟨i, ?_, rfl⟩)
    simpa [run_worker_threads, numWorkers, List.mem_range] using hi
  have s3 : List.Sublist [Ev.exitProcess]
      (((TimerId.dropEvents (some p.handle)).map Ev.os) ++ [Ev.exitProcess]) :=
    List.sublist_append_right _ _
  have s4 := (s1.append s2).append s3
  have s5 := s4.trans (List.sublist_append_right
    ([Ev.flagNew false]
      ++ (run_worker_threads p.core_count p.threads_per_core).map Ev.spawnWorker
      ++ (TimerThread.new (okOs p.handle) p.tid p.priority p.carrierWakes p.interval).2) _)
  simpa [mainTrace, List.append_assoc] using s5

/-- Concrete run used as witness/counterexample input: 2 cores, 1 thread per
core, carrier tid 5, priority 1, timer handle 7, 1 ms interval, one idle
wake. -/
def sampleRun : RunParams :=
  { core_count := 2, threads_per_core := 1, tid := 5, priority := 1,
    handle := 7, interval := ⟨0, 1000000⟩, carrierWakes := 1 }

/-- Witness for C8 on the concrete run (worker 0 of 1). -/
theorem shutdown_join_order_witness :
    List.Sublist [Ev.flagStore true, Ev.joinCarrier, Ev.joinWorker 0, Ev.exitProcess]
      (mainTrace sampleRun) :=
  shutdown_join_order sampleRun 0 (by decide)

/-- Counterexample to C7: on a concrete run of the carrier closure the
identity is published (the `send`) strictly before the thread binds itself to
the reserved core, and the carrier never installs the `SIGALRM` interception
itself (that happens on the constructing thread, in `TimerThread::new`,
before the spawn) — refuting "installs the interception and binds the core,
and only afterwards publishes its identity". -/
theorem carrier_startup_order_counterexample :
    ¬ List.Sublist [Ev.bindAffinity [0], Ev.send 5] (carrierTrace 5 1 1)
    ∧ Ev.signalsNew [SIGALRM] ∉ carrierTrace 5 1 1
    ∧ List.Sublist [Ev.send 5, Ev.bindAffinity [0]] (carrierTrace 5 1 1) := by
  decide

/-- Claim C7 amended: the interception for the reserved timer-expiry signal
is installed by the constructing thread before the carrier thread is spawned
(`Signals::new` precedes the spawn in `TimerThread::new`); the carrier thread
itself starts by publishing its own identity, and only afterwards binds
itself to the reserved core and elevates its scheduling priority. -/
theorem carrier_startup_order (tid : Int) (priority falseWakes : Nat) (p : RunParams) :
    (carrierTrace tid priority falseWakes).take 3
      = [Ev.send tid, Ev.bindAffinity [0], Ev.setPolicy Policy.Fifo (asI32 priority)]
    ∧ List.Sublist [Ev.signalsNew [SIGALRM], Ev.spawnCarrier] (mainTrace p) := by
  constructor
  · simp [carrierTrace]
  · have s1 : List.Sublist [Ev.signalsNew [SIGALRM], Ev.spawnCarrier]
        (TimerThread.new (okOs p.handle) p.tid p.priority p.carrierWakes p.interval).2 := by
      rw [TimerThread.new]
      refine List.Sublist.trans ?_ (List.sublist_append_left _ _)
      refine List.Sublist.cons₂ _ ?_
      refine List.Sublist.cons _ ?_
      refine List.Sublist.cons₂ _ ?_
      exact List.nil_sublist _
    have s2 : List.Sublist
        (TimerThread.new (okOs p.handle) p.tid p.priority p.carrierWakes p.interval).2
        (mainTrace p) := by
      rw [mainTrace]
      refine List.Sublist.trans ?_ (List.sublist_append_left _ _)
      refine List.Sublist.trans ?_ (List.sublist_append_left _ _)
      refine List.Sublist.trans ?_ (List.sublist_append_left _ _)
      refine List.Sublist.trans ?_ (List.sublist_append_left _ _)
      exact List.sublist_append_right _ _
    exact s1.trans s2

/-- Events deleting an OS timer, with their handles, among a list of events. -/
def osDeletes : List Ev → List Nat :=
  List.filterMap fun e =>
    match e with
    | .os (.timerDelete h) => some h
    | _ => none

/-- Counterexample to C9: in the concrete run `sampleRun` the OS timer
deletion (`timer_delete` on handle 7, performed when the `TimerThread` is
dropped at the end of `main`) occurs *after* the carrier thread has been
joined — refuting "never after the carrier thread has been joined". -/
theorem timer_handle_outlives_carrier_counterexample :
    List.Sublist [Ev.joinCarrier, Ev.os (OsCall.timerDelete 7)] (mainTrace sampleRun) := by
  decide

theorem osDeletes_append (l r : List Ev) :
    osDeletes (l ++ r) = osDeletes l ++ osDeletes r := by
  simp [osDeletes]

theorem osDeletes_map_spawnWorker (l : List Nat) :
    osDeletes (l.map Ev.spawnWorker) = [] := by
  induction l with
  | nil => rfl
  | cons c r ih => simp [osDeletes] at ih ⊢

theorem osDeletes_map_joinWorker (l : List Nat) :
    osDeletes (l.map Ev.joinWorker) = [] := by
  induction l with
  | nil => rfl
  | cons c r ih => simp [osDeletes] at ih ⊢

theorem osDeletes_timerThreadNew_ok (h : Nat) (tid : Int)
    (priority falseWakes : Nat) (dur : Duration) :
    osDeletes (TimerThread.new (okOs h) tid priority falseWakes dur).2 = [] := by
  simp [TimerThread.new, Timer.new, okOs, osDeletes]

/-- Claim C9 amended: in every successful run the OS timer resource is
destroyed exactly once, but only when the orchestrator's `TimerThread` is
dropped at the end of `main` — i.e. *after* the carrier thread has been
joined (and before process exit), not before or during the carrier's
teardown. -/
theorem timer_deleted_once_after_carrier_join (p : RunParams) :
    List.Sublist [Ev.joinCarrier, Ev.os (OsCall.timerDelete p.handle), Ev.exitProcess]
      (mainTrace p)
    ∧ osDeletes (mainTrace p) = [p.handle] := by
  constructor
  · have s1 : List.Sublist [Ev.joinCarrier]
        [Ev.sleep, Ev.flagStore true, Ev.joinCarrier] := by decide
    have e : (TimerId.dropEvents (some p.handle)).map Ev.os ++ [Ev.exitProcess]
        = [Ev.os (OsCall.timerDelete p.handle), Ev.exitProcess] := rfl
    have s2 : List.Sublist [Ev.os (OsCall.timerDelete p.handle), Ev.exitProcess]
        ((run_worker_threads p.core_count p.threads_per_core).map Ev.joinWorker
          ++ ((TimerId.dropEvents (some p.handle)).map Ev.os ++ [Ev.exitProcess])) := by
      rw [e]
      exact List.sublist_append_right _ _
    have s4 := s1.append s2
    have s5 := s4.trans (List.sublist_append_right
      ([Ev.flagNew false]
        ++ (run_worker_threads p.core_count p.threads_per_core).map Ev.spawnWorker
        ++ (TimerThread.new (okOs p.handle) p.tid p.priority p.carrierWakes p.interval).2) _)
    simpa [mainTrace, List.append_assoc] using s5
  · rw [mainTrace]
    repeat rw [osDeletes_append]
    rw [osDeletes_timerThreadNew_ok, osDeletes_map_spawnWorker, osDeletes_map_joinWorker]
    simp [osDeletes, TimerId.dropEvents]
